import Mathlib

/-!
Shallow embedding of
`official/vision/beta/projects/centernet/configs/centernet.py`
(CenterNet configuration definitions of the TensorFlow model garden).

Modelling conventions:
* Python `dataclass` configuration records become Lean structures with the
  same field names and default values.
* Python `float` literals are modelled as exact rationals (`ℚ`).  At the one
  place where a float feeds an integer decision — `int(500 * 0.65)` and
  `int(500 * 0.85)` in the factory — the IEEE-754 double results (`325.0`
  and `425.0`) coincide with the exact rational results, so the modelling
  is faithful there.
* Python `dict`s built by successive `update` calls with pairwise distinct
  keys are modelled as association lists in insertion order.
* The method `get_output_length_dict` reads `self` and never assigns to it;
  it is embedded in explicit state-passing style, returning the (possibly
  failing) result together with the final state of the task record.
* Base classes (`hyperparams.Config`, `cfg.DataConfig`, `cfg.TaskConfig`,
  `cfg.TrainerConfig`, `cfg.ExperimentConfig`, `optimization`,
  `backbones`, `common.NormActivation`) are outside the provided source;
  only the fields this file declares, reads, or sets are modelled.
-/

namespace Centernet

/-- `backbones.Hourglass` (module outside the provided source); only the
field set at the call site in this file is modelled. -/
structure Hourglass where
  model_id : Int
deriving DecidableEq, Repr

/-- `backbones.Backbone` (module outside the provided source); only the
fields set at the call site in this file are modelled. -/
structure Backbone where
  type : Option String
  hourglass : Hourglass
deriving DecidableEq, Repr

/-- `common.NormActivation` (module outside the provided source); only the
fields set at the call site in this file are modelled. -/
structure NormActivation where
  norm_momentum : ℚ
  norm_epsilon : ℚ
  use_sync_bn : Bool
deriving DecidableEq, Repr

/-- `TfExampleDecoder` dataclass. -/
structure TfExampleDecoder where
  regenerate_source_id : Bool := false
deriving DecidableEq, Repr

/-- `TfExampleDecoderLabelMap` dataclass. -/
structure TfExampleDecoderLabelMap where
  regenerate_source_id : Bool := false
  label_map : String := ""
deriving DecidableEq, Repr

/-- `DataDecoder` dataclass (a `hyperparams.OneOfConfig`). -/
structure DataDecoder where
  type : Option String := some "simple_decoder"
  simple_decoder : TfExampleDecoder := {}
  label_map_decoder : TfExampleDecoderLabelMap := {}
deriving DecidableEq, Repr

/-- `Parser` dataclass: config for the parser. -/
structure Parser where
  bgr_ordering : Bool := true
  aug_rand_hflip : Bool := true
  aug_scale_min : ℚ := 1.0
  aug_scale_max : ℚ := 1.0
  aug_rand_saturation : Bool := false
  aug_rand_brightness : Bool := false
  aug_rand_zoom : Bool := false
  aug_rand_hue : Bool := false
  channel_means : List ℚ := [104.01362025, 114.03422265, 119.9165958]
  channel_stds : List ℚ := [73.6027665, 69.89082075, 70.9150767]
deriving DecidableEq, Repr

/-- `DataConfig` dataclass: input config for training.  Its base class
`cfg.DataConfig` is outside the provided source; only the fields declared
in this file are modelled. -/
structure DataConfig where
  input_path : String := ""
  global_batch_size : Int := 32
  is_training : Bool := true
  dtype : String := "float16"
  decoder : DataDecoder := {}
  parser : Parser := {}
  shuffle_buffer_size : Int := 10000
  file_type : String := "tfrecord"
  drop_remainder : Bool := true
deriving DecidableEq, Repr

/-- `DetectionLoss` dataclass. -/
structure DetectionLoss where
  object_center_weight : ℚ := 1.0
  offset_weight : ℚ := 1.0
  scale_weight : ℚ := 0.1
deriving DecidableEq, Repr

/-- `SegmentationLoss` dataclass (no fields). -/
structure SegmentationLoss where
deriving DecidableEq, Repr

/-- `Losses` dataclass. -/
structure Losses where
  detection : DetectionLoss := {}
  segmentation : SegmentationLoss := {}
  use_gaussian_bump : Bool := true
  use_odapi_gaussian : Bool := false
  gaussian_rad : Int := -1
  gaussian_iou : ℚ := 0.7
  class_offset : Int := 1
deriving DecidableEq, Repr

/-- `CenterNetHead` dataclass. -/
structure CenterNetHead where
  heatmap_bias : ℚ := -2.19
  num_inputs : Int := 2
deriving DecidableEq, Repr

/-- `CenterNetDetectionGenerator` dataclass. -/
structure CenterNetDetectionGenerator where
  max_detections : Int := 100
  peak_error : ℚ := 1e-6
  peak_extract_kernel_size : Int := 3
  class_offset : Int := 1
  use_nms : Bool := false
  nms_pre_thresh : ℚ := 0.1
  nms_thresh : ℚ := 0.4
  use_reduction_sum : Bool := true
deriving DecidableEq, Repr

/-- `CenterNetModel` dataclass: config for the centernet model. -/
structure CenterNetModel where
  num_classes : Int := 90
  max_num_instances : Int := 128
  input_size : List Int := []
  backbone : Backbone :=
    { type := some "hourglass", hourglass := { model_id := 52 } }
  head : CenterNetHead := {}
  detection_generator : CenterNetDetectionGenerator := {}
  norm_activation : NormActivation :=
    { norm_momentum := 0.9, norm_epsilon := 1e-5, use_sync_bn := false }
deriving DecidableEq, Repr

/-- `CenterNetDetection` dataclass.  The source comments that corner
detection is not supported currently. -/
structure CenterNetDetection where
  use_centers : Bool := true
  use_corners : Bool := false
  predict_3d : Bool := false
deriving DecidableEq, Repr

/-- `CenterNetSubTasks` dataclass.  `detection` may be overridden to `None`
by callers, hence `Option`.  The additional sub-task fields `kp_detection`
and `segmentation` are commented-out placeholders in the source yet are
read by `get_output_length_dict`; their lookup behaviour lives in the
`hyperparams.Config` base class, outside the provided source.
Modelled from the spec: "at least one detection sub-task must be active" —
the placeholder sub-tasks are modelled as disabled boolean fields. -/
structure CenterNetSubTasks where
  detection : Option CenterNetDetection := some {}
  kp_detection : Bool := false
  segmentation : Bool := false
deriving DecidableEq, Repr

/-- `CenterNetTask` dataclass: config for the centernet task.  Its base
class `cfg.TaskConfig` is outside the provided source; only the fields
declared in this file are modelled. -/
structure CenterNetTask where
  model : CenterNetModel := {}
  train_data : DataConfig := { is_training := true }
  validation_data : DataConfig := { is_training := false }
  subtasks : CenterNetSubTasks := {}
  losses : Losses := {}
  gradient_clip_norm : ℚ := 10.0
  per_category_metrics : Bool := false
  weight_decay : ℚ := 5e-4
  init_checkpoint : Option String := none
  init_checkpoint_modules : String := "all"
  init_checkpoint_source : String := "TFVision"
  annotation_file : Option String := none
  checkpoint_backbone_name : String := "hourglass104_512"
  checkpoint_head_name : String := "detection_2d"
deriving DecidableEq, Repr

/-- `CenterNetTask.get_output_length_dict`, in explicit state-passing
style.  A failed `assert cond, msg` becomes `Except.error msg`; the
`lengths` dict is the association list, in insertion order.  The method
never assigns to `self`, so the final state is `self` itself. -/
def CenterNetTask.get_output_length_dict (self : CenterNetTask) :
    Except String (List (String × Int)) × CenterNetTask :=
  let lengths : List (String × Int) := []
  let sub_task_check :=
    self.subtasks.detection.isSome || self.subtasks.kp_detection ||
      self.subtasks.segmentation
  if !sub_task_check then
    (Except.error "You must specify at least one subtask to CenterNet", self)
  else
    match self.subtasks.detection with
    | none => (Except.ok lengths, self)
    | some det =>
        let detection_task_check := det.use_centers && !det.use_corners
        if !detection_task_check then
          (Except.error "Use corner is not supported currently.", self)
        else
          let lengths :=
            if det.use_centers then
              let lengths := lengths ++
                [("ct_heatmaps", self.model.num_classes), ("ct_offset", 2)]
              if !det.use_corners then lengths ++ [("ct_size", 2)]
              else lengths
            else lengths
          let lengths :=
            if det.use_corners then
              lengths ++
                [("tl_heatmaps", self.model.num_classes), ("tl_offset", 2),
                 ("br_heatmaps", self.model.num_classes), ("br_offset", 2)]
            else lengths
          let lengths :=
            if det.predict_3d then
              lengths ++ [("depth", 1), ("orientation", 8)]
            else lengths
          (Except.ok lengths, self)

/-- Module-level constant `COCO_INPUT_PATH_BASE`. -/
def COCO_INPUT_PATH_BASE : String := "coco"

/-- Module-level constant `COCO_TRAIN_EXAMPLES`. -/
def COCO_TRAIN_EXAMPLES : Int := 118287

/-- Module-level constant `COCO_VAL_EXAMPLES`. -/
def COCO_VAL_EXAMPLES : Int := 5000

/-- `os.path.join` on two components, as used in this file (the first
component is a nonempty relative path without a trailing separator, the
second is relative). -/
def osPathJoin (a b : String) : String := a ++ "/" ++ b

/-- Python `int()` applied to a rational (truncation toward zero). -/
def pyIntOfRat (q : ℚ) : Int := q.num / q.den

/-- The `sgd` optimizer block of the `OptimizationConfig` dict. -/
structure SgdConfig where
  momentum : ℚ
deriving DecidableEq, Repr

/-- The `optimizer` block of the `OptimizationConfig` dict. -/
structure OptimizerConfig where
  type : String
  sgd : SgdConfig
deriving DecidableEq, Repr

/-- The `stepwise` learning-rate block of the `OptimizationConfig` dict. -/
structure StepwiseConfig where
  boundaries : List Int
  values : List ℚ
deriving DecidableEq, Repr

/-- The `learning_rate` block of the `OptimizationConfig` dict. -/
structure LearningRateConfig where
  type : String
  stepwise : StepwiseConfig
deriving DecidableEq, Repr

/-- The `linear` warmup block of the `OptimizationConfig` dict. -/
structure LinearWarmupConfig where
  warmup_steps : Int
deriving DecidableEq, Repr

/-- The `warmup` block of the `OptimizationConfig` dict. -/
structure WarmupConfig where
  type : String
  linear : LinearWarmupConfig
deriving DecidableEq, Repr

/-- `optimization.OptimizationConfig` (outside the provided source); only
the keys of the dict passed at the call site in this file are modelled. -/
structure OptimizationConfig where
  optimizer : OptimizerConfig
  learning_rate : LearningRateConfig
  warmup : WarmupConfig
deriving DecidableEq, Repr

/-- `cfg.TrainerConfig` (outside the provided source); only the fields set
at the call site in this file are modelled. -/
structure TrainerConfig where
  steps_per_loop : Int
  summary_interval : Int
  checkpoint_interval : Int
  train_steps : Int
  validation_steps : Int
  validation_interval : Int
  optimizer_config : OptimizationConfig
deriving DecidableEq, Repr

/-- `cfg.ExperimentConfig` (outside the provided source); only the fields
set at the call site in this file are modelled. -/
structure ExperimentConfig where
  task : CenterNetTask
  trainer : TrainerConfig
  restrictions : List String
deriving DecidableEq, Repr

/-- The experiment factory `centernet_hourglass_coco`, registered under the
key `'centernet_hourglass_coco'`.  A call of the Python function is
modelled as an application to `()`. -/
def centernet_hourglass_coco (_ : Unit) : ExperimentConfig :=
  let train_batch_size : Int := 128
  let eval_batch_size : Int := 8
  let steps_per_epoch : Int := COCO_TRAIN_EXAMPLES / train_batch_size
  { task :=
      { annotation_file :=
          some (osPathJoin COCO_INPUT_PATH_BASE "instances_val2017.json")
        model := {}
        train_data :=
          { input_path := osPathJoin COCO_INPUT_PATH_BASE "train*"
            is_training := true
            global_batch_size := train_batch_size
            parser := {}
            shuffle_buffer_size := 2 }
        validation_data :=
          { input_path := osPathJoin COCO_INPUT_PATH_BASE "val*"
            is_training := false
            global_batch_size := eval_batch_size
            shuffle_buffer_size := 2 } }
    trainer :=
      { steps_per_loop := steps_per_epoch
        summary_interval := steps_per_epoch
        checkpoint_interval := steps_per_epoch
        train_steps := 500 * steps_per_epoch
        validation_steps := COCO_VAL_EXAMPLES / eval_batch_size
        validation_interval := steps_per_epoch
        optimizer_config :=
          { optimizer := { type := "sgd", sgd := { momentum := 0.9 } }
            learning_rate :=
              { type := "stepwise"
                stepwise :=
                  { boundaries :=
                      [pyIntOfRat (500 * 0.65) * steps_per_epoch,
                       pyIntOfRat (500 * 0.85) * steps_per_epoch]
                    values :=
                      [0.001 * (train_batch_size : ℚ) / 128.0,
                       0.00001 * (train_batch_size : ℚ) / 128.0,
                       0.000001 * (train_batch_size : ℚ) / 128.0] } }
            warmup :=
              { type := "linear", linear := { warmup_steps := 2000 } } } }
    restrictions :=
      ["task.train_data.is_training != None",
       "task.validation_data.is_training != None"] }

end Centernet

namespace Centernet

/-- Helper: the first stepwise boundary factor `int(500 * 0.65)` evaluates
to `325` (the exact rational and the IEEE-754 double agree here). -/
theorem pyIntOfRat_boundary_one : pyIntOfRat ((500 : ℚ) * 0.65) = 325 := by
  have e : (500 : ℚ) * 0.65 = 325 := by norm_num
  unfold pyIntOfRat
  rw [e]
  norm_num

/-- Helper: the second stepwise boundary factor `int(500 * 0.85)` evaluates
to `425` (the exact rational and the IEEE-754 double agree here). -/
theorem pyIntOfRat_boundary_two : pyIntOfRat ((500 : ℚ) * 0.85) = 425 := by
  have e : (500 : ℚ) * 0.85 = 425 := by norm_num
  unfold pyIntOfRat
  rw [e]
  norm_num

/-- Helper: the factory's stepwise boundaries evaluate to
`[300300, 392700]`. -/
theorem stepwise_boundaries_eval :
    (centernet_hourglass_coco
      ()).trainer.optimizer_config.learning_rate.stepwise.boundaries =
      [300300, 392700] := by
  show [pyIntOfRat ((500 : ℚ) * 0.65) * (COCO_TRAIN_EXAMPLES / 128),
        pyIntOfRat ((500 : ℚ) * 0.85) * (COCO_TRAIN_EXAMPLES / 128)] =
      [300300, 392700]
  rw [pyIntOfRat_boundary_one, pyIntOfRat_boundary_two]
  decide

/-- Helper: the factory's stepwise values evaluate to
`[0.001, 0.00001, 0.000001]`. -/
theorem stepwise_values_eval :
    (centernet_hourglass_coco
      ()).trainer.optimizer_config.learning_rate.stepwise.values =
      [0.001, 0.00001, 0.000001] := by
  show [(0.001 : ℚ) * ((128 : Int) : ℚ) / 128.0,
        (0.00001 : ℚ) * ((128 : Int) : ℚ) / 128.0,
        (0.000001 : ℚ) * ((128 : Int) : ℚ) / 128.0] =
      [0.001, 0.00001, 0.000001]
  norm_num

/-- C1: for every `CenterNetTask` whose detection sub-task has
`use_corners = True`, regardless of `use_centers`, `get_output_length_dict`
fails with the assertion message `Use corner is not supported currently.`. -/
theorem get_output_length_dict_corners_raises (t : CenterNetTask)
    (det : CenterNetDetection) (hdet : t.subtasks.detection = some det)
    (hc : det.use_corners = true) :
    (t.get_output_length_dict).1 =
      Except.error "Use corner is not supported currently." := by
  unfold CenterNetTask.get_output_length_dict
  simp [hdet, hc]

/-- Witness for C1: the default task with `use_corners` switched on. -/
theorem get_output_length_dict_corners_raises_witness :
    ((({ subtasks := { detection := some { use_corners := true } } } :
        CenterNetTask).get_output_length_dict).1 =
      Except.error "Use corner is not supported currently.") :=
  get_output_length_dict_corners_raises _ { use_corners := true } rfl rfl

/-- C2: for every `CenterNetTask` with `subtasks.detection = None` and no
other sub-task enabled, `get_output_length_dict` fails with the assertion
message `You must specify at least one subtask to CenterNet`. -/
theorem get_output_length_dict_no_subtask_raises (t : CenterNetTask)
    (hdet : t.subtasks.detection = none)
    (hkp : t.subtasks.kp_detection = false)
    (hseg : t.subtasks.segmentation = false) :
    (t.get_output_length_dict).1 =
      Except.error "You must specify at least one subtask to CenterNet" := by
  unfold CenterNetTask.get_output_length_dict
  simp [hdet, hkp, hseg]

/-- Witness for C2: the default task with `detection` overridden to `None`. -/
theorem get_output_length_dict_no_subtask_raises_witness :
    ((({ subtasks := { detection := none } } :
        CenterNetTask).get_output_length_dict).1 =
      Except.error "You must specify at least one subtask to CenterNet") :=
  get_output_length_dict_no_subtask_raises _ rfl rfl rfl

/-- C3: the factory's `trainer.train_steps` equals
`500 * (COCO_TRAIN_EXAMPLES // 128) = 462000` and
`trainer.validation_steps` equals `COCO_VAL_EXAMPLES // 8 = 625`. -/
theorem centernet_hourglass_coco_steps :
    (centernet_hourglass_coco ()).trainer.train_steps =
        500 * (COCO_TRAIN_EXAMPLES / 128) ∧
    (centernet_hourglass_coco ()).trainer.train_steps = 462000 ∧
    (centernet_hourglass_coco ()).trainer.validation_steps =
        COCO_VAL_EXAMPLES / 8 ∧
    (centernet_hourglass_coco ()).trainer.validation_steps = 625 := by
  refine ⟨rfl, by decide, rfl, by decide⟩

/-- C4: default construction of every configuration record declared in the
file succeeds and yields exactly the declared default for every field. -/
theorem default_construction_yields_documented_defaults :
    (({} : TfExampleDecoder) = { regenerate_source_id := false }) ∧
    (({} : DataDecoder) =
      { type := some "simple_decoder"
        simple_decoder := { regenerate_source_id := false }
        label_map_decoder :=
          { regenerate_source_id := false, label_map := "" } }) ∧
    (({} : Parser) =
      { bgr_ordering := true, aug_rand_hflip := true, aug_scale_min := 1.0,
        aug_scale_max := 1.0, aug_rand_saturation := false,
        aug_rand_brightness := false, aug_rand_zoom := false,
        aug_rand_hue := false,
        channel_means := [104.01362025, 114.03422265, 119.9165958],
        channel_stds := [73.6027665, 69.89082075, 70.9150767] }) ∧
    (({} : DataConfig) =
      { input_path := "", global_batch_size := 32, is_training := true,
        dtype := "float16", decoder := {}, parser := {},
        shuffle_buffer_size := 10000, file_type := "tfrecord",
        drop_remainder := true }) ∧
    (({} : DetectionLoss) =
      { object_center_weight := 1.0, offset_weight := 1.0,
        scale_weight := 0.1 }) ∧
    (({} : Losses) =
      { detection := {}, segmentation := {}, use_gaussian_bump := true,
        use_odapi_gaussian := false, gaussian_rad := -1,
        gaussian_iou := 0.7, class_offset := 1 }) ∧
    (({} : CenterNetHead) = { heatmap_bias := -2.19, num_inputs := 2 }) ∧
    (({} : CenterNetDetectionGenerator) =
      { max_detections := 100, peak_error := 1e-6,
        peak_extract_kernel_size := 3, class_offset := 1, use_nms := false,
        nms_pre_thresh := 0.1, nms_thresh := 0.4,
        use_reduction_sum := true }) ∧
    (({} : CenterNetModel) =
      { num_classes := 90, max_num_instances := 128, input_size := [],
        backbone := { type := some "hourglass",
                      hourglass := { model_id := 52 } },
        head := {}, detection_generator := {},
        norm_activation := { norm_momentum := 0.9, norm_epsilon := 1e-5,
                             use_sync_bn := false } }) ∧
    (({} : CenterNetDetection) =
      { use_centers := true, use_corners := false, predict_3d := false }) ∧
    (({} : CenterNetSubTasks) =
      { detection := some { use_centers := true, use_corners := false,
                            predict_3d := false },
        kp_detection := false, segmentation := false }) ∧
    (({} : CenterNetTask) =
      { model := {}, train_data := { is_training := true },
        validation_data := { is_training := false }, subtasks := {},
        losses := {}, gradient_clip_norm := 10.0,
        per_category_metrics := false, weight_decay := 5e-4,
        init_checkpoint := none, init_checkpoint_modules := "all",
        init_checkpoint_source := "TFVision", annotation_file := none,
        checkpoint_backbone_name := "hourglass104_512",
        checkpoint_head_name := "detection_2d" }) :=
  ⟨rfl, rfl, rfl, rfl, rfl, rfl, rfl, rfl, rfl, rfl, rfl, rfl⟩

/-- C5: the factory is deterministic — any two calls return structurally
equal experiment configuration trees. -/
theorem centernet_hourglass_coco_deterministic (u v : Unit) :
    centernet_hourglass_coco u = centernet_hourglass_coco v := rfl

/-- Witness for C5: two concrete calls agree. -/
theorem centernet_hourglass_coco_deterministic_witness :
    centernet_hourglass_coco () = centernet_hourglass_coco () :=
  centernet_hourglass_coco_deterministic () ()

/-- C6: the factory's stepwise boundaries are
`[int(500 * 0.65), int(500 * 0.85)]` scaled by
`steps_per_epoch = COCO_TRAIN_EXAMPLES // 128 = 924`, i.e.
`[300300, 392700]`; the stepwise values are `[0.001, 0.00001, 0.000001]`
(each scaled by `train_batch_size / 128.0 = 1.0`); and the linear warmup
has `warmup_steps = 2000`. -/
theorem centernet_hourglass_coco_lr_schedule :
    ((centernet_hourglass_coco
        ()).trainer.optimizer_config.learning_rate.stepwise.boundaries =
      [pyIntOfRat (500 * 0.65) * (COCO_TRAIN_EXAMPLES / 128),
       pyIntOfRat (500 * 0.85) * (COCO_TRAIN_EXAMPLES / 128)]) ∧
    ((centernet_hourglass_coco
        ()).trainer.optimizer_config.learning_rate.stepwise.boundaries =
      [300300, 392700]) ∧
    ((centernet_hourglass_coco
        ()).trainer.optimizer_config.learning_rate.stepwise.values =
      [0.001, 0.00001, 0.000001]) ∧
    ((centernet_hourglass_coco
        ()).trainer.optimizer_config.warmup.linear.warmup_steps = 2000) :=
  ⟨rfl, stepwise_boundaries_eval, stepwise_values_eval, rfl⟩

/-- C7: for every task whose detection sub-task is present with
`use_centers = True` and `use_corners = False`, `get_output_length_dict`
returns normally (no assertion fires). -/
theorem get_output_length_dict_centers_ok (t : CenterNetTask)
    (det : CenterNetDetection) (hdet : t.subtasks.detection = some det)
    (hc : det.use_centers = true) (hnc : det.use_corners = false) :
    ∃ lengths, (t.get_output_length_dict).1 = Except.ok lengths := by
  unfold CenterNetTask.get_output_length_dict
  simp [hdet, hc, hnc]

/-- Witness for C7: the default-constructed task returns normally. -/
theorem get_output_length_dict_centers_ok_witness :
    ∃ lengths,
      ((({} : CenterNetTask).get_output_length_dict).1 =
        Except.ok lengths) :=
  get_output_length_dict_centers_ok {} {} rfl rfl rfl

/-- C8: with centers enabled and corners disabled, the returned mapping is
exactly `ct_heatmaps ↦ num_classes, ct_offset ↦ 2, ct_size ↦ 2`, extended
with `depth ↦ 1, orientation ↦ 8` exactly when `predict_3d` is set. -/
theorem get_output_length_dict_centers_result (t : CenterNetTask)
    (det : CenterNetDetection) (hdet : t.subtasks.detection = some det)
    (hc : det.use_centers = true) (hnc : det.use_corners = false) :
    (t.get_output_length_dict).1 = Except.ok
      ([("ct_heatmaps", t.model.num_classes), ("ct_offset", 2),
        ("ct_size", 2)] ++
        (if det.predict_3d then [("depth", 1), ("orientation", 8)]
         else [])) := by
  unfold CenterNetTask.get_output_length_dict
  cases hp : det.predict_3d <;> simp [hdet, hc, hnc, hp]

/-- Witness for C8: the default-constructed task yields
`ct_heatmaps ↦ 90, ct_offset ↦ 2, ct_size ↦ 2`. -/
theorem get_output_length_dict_centers_result_witness :
    ((({} : CenterNetTask).get_output_length_dict).1 =
      Except.ok [("ct_heatmaps", 90), ("ct_offset", 2), ("ct_size", 2)]) :=
  get_output_length_dict_centers_result {} {} rfl rfl rfl

/-- C9: `get_output_length_dict` never modifies the task state: the final
state returned by the state-passing embedding equals the input task, on
both the returning and the raising paths. -/
theorem get_output_length_dict_preserves_task (t : CenterNetTask) :
    (t.get_output_length_dict).2 = t := by
  simp only [CenterNetTask.get_output_length_dict]
  repeat' split
  all_goals rfl

/-- Witness for C9: the default-constructed task is unchanged. -/
theorem get_output_length_dict_preserves_task_witness :
    ((({} : CenterNetTask).get_output_length_dict).2 =
      ({} : CenterNetTask)) :=
  get_output_length_dict_preserves_task {}

/-- C10: the produced schedule is internally consistent:
`0 < warmup_steps (2000) < first boundary (300300) < second boundary
(392700) < train_steps (462000)`, the boundaries are strictly increasing,
and the values list has one entry more than the boundaries list. -/
theorem centernet_hourglass_coco_schedule_consistent :
    (((centernet_hourglass_coco
        ()).trainer.optimizer_config.learning_rate.stepwise.boundaries).length
      = 2) ∧
    (0 < (centernet_hourglass_coco
        ()).trainer.optimizer_config.warmup.linear.warmup_steps) ∧
    ((centernet_hourglass_coco
        ()).trainer.optimizer_config.warmup.linear.warmup_steps <
      ((centernet_hourglass_coco
        ()).trainer.optimizer_config.learning_rate.stepwise.boundaries).headI) ∧
    List.Chain' (fun a b => a < b)
      ((centernet_hourglass_coco
        ()).trainer.optimizer_config.learning_rate.stepwise.boundaries) ∧
    (∀ b ∈ (centernet_hourglass_coco
        ()).trainer.optimizer_config.learning_rate.stepwise.boundaries,
      b < (centernet_hourglass_coco ()).trainer.train_steps) ∧
    (((centernet_hourglass_coco
        ()).trainer.optimizer_config.learning_rate.stepwise.values).length =
      ((centernet_hourglass_coco
        ()).trainer.optimizer_config.learning_rate.stepwise.boundaries).length
        + 1) := by
  rw [stepwise_boundaries_eval, stepwise_values_eval]
  refine ⟨by decide, by decide, by decide, ?_, by decide, by decide⟩
  norm_num [List.chain'_cons, List.chain'_singleton]

end Centernet
